import Mathlib

/-
Verification of the CortexEngine scripts: a shallow embedding of the
ONNX model fixers (smart_convert.py, repair_and_convert.py,
transplant_metadata.py) and of the EXR-to-DDS texture batch converter
(convert_exr.py), together with theorems settling the specification
claims about them.

Modelling conventions:
  - Python strings are Lean `String`; the Python operations `sub in s`,
    `s.lower()` and `s.endswith(suf)` are embedded as list-of-character
    functions (`strIn`, `lower`, `endswith`) so that concrete instances
    reduce in the kernel.
  - float32 sample values are modelled as rationals; the only float
    constants involved (0.5, 65535.0) and the affine/clamp arithmetic on
    normal-map data are exact in float32 at the precision the claims use.
  - `numpy.ndarray.astype(numpy.uint16)` truncates toward zero; on the
    already-clamped non-negative values this is the floor.
  - The filesystem seen by the model fixer is an association list from
    path to model; loading is lookup, saving prepends (shadowing).
-/

namespace CortexEngine

/-! ### String primitives: Python `in`, `str.lower`, `str.endswith` -/

/-- Python substring containment `sub in s`, on character lists. -/
def strInAux (sub : List Char) : List Char → Bool
  | [] => sub.isEmpty
  | c :: t => sub.isPrefixOf (c :: t) || strInAux sub t

/-- Python `sub in s` for strings. -/
def strIn (sub s : String) : Bool := strInAux sub.data s.data

/-- Python `s.lower()` (ASCII case folding, which covers the filenames used). -/
def lower (s : String) : String := String.mk (s.data.map Char.toLower)

/-- Python `s.endswith(suf)`. -/
def endswith (s suf : String) : Bool := suf.data.isSuffixOf s.data

/-! ### ONNX data model (the fields the scripts read or patch) -/

/-- A named tensor declaration: `onnx` value info with its element type code
(FLOAT = 1, FLOAT16 = 10). -/
structure TensorInfo where
  name : String
  elemType : Nat
deriving DecidableEq

/-- The graph fields the scripts touch: name, declared inputs, declared
outputs, and the stored weight tensors. -/
structure GraphProto where
  name : String
  input : List TensorInfo
  output : List TensorInfo
  initializer : List TensorInfo
deriving DecidableEq

/-- One operator-set version entry. -/
structure OperatorSetId where
  version : Int
deriving DecidableEq

/-- The model fields the scripts touch. -/
structure ModelProto where
  irVersion : Int
  opsetImport : List OperatorSetId
  graph : GraphProto
deriving DecidableEq

/-- ONNX element type code for float32. -/
def FLOAT : Nat := 1

/-- ONNX element type code for float16. -/
def FLOAT16 : Nat := 10

/-- Down-cast a single tensor declaration from float32 to float16. -/
def castTensor (t : TensorInfo) : TensorInfo :=
  if t.elemType = FLOAT then { t with elemType := FLOAT16 } else t

/-- Modelled from the spec: `onnxconverter_common.float16.convert_float_to_float16`
is an external library call, not code of this repository.  Per the spec
(section 4.1(a)) it down-casts all floating-point tensors to a half-precision
representation, optionally preserving the declared input/output element
types; `keep_io_types=True` keeps the declared input and output signatures
untouched. -/
def convert_float_to_float16 (model : ModelProto) (keep_io_types : Bool) : ModelProto :=
  { model with
    graph :=
      { model.graph with
        initializer := model.graph.initializer.map castTensor
        input := if keep_io_types then model.graph.input else model.graph.input.map castTensor
        output := if keep_io_types then model.graph.output else model.graph.output.map castTensor } }

/-! ### The model fixer scripts -/

/-- Filesystem model for the fixer scripts: path-to-model association list. -/
abbrev FileSystem := List (String × ModelProto)

/-- smart_convert.py: source path constant. -/
def input_path : String := "models/dreamer/onnx/sdxl_turbo_unet_768x768.onnx"

/-- smart_convert.py: destination path constant. -/
def output_path : String := "models/dreamer/onnx/sdxl_turbo_unet_768x768_fp16.onnx"

/-- `onnx.load`: look up a path in the filesystem. -/
def onnx_load (fs : FileSystem) (path : String) : Option ModelProto :=
  List.lookup path fs

/-- `onnx.save_model`: write the model at the path (shadowing any prior file). -/
def onnx_save_model (fs : FileSystem) (path : String) (model : ModelProto) : FileSystem :=
  (path, model) :: fs

/-- smart_convert.py, top to bottom: load, abort if the source graph has no
declared outputs, convert with `keep_io_types=True`, abort if the converted
graph has no outputs, save.  Returns the resulting filesystem and the exit
status (`Except.error` models the raised `ValueError`, a non-zero exit). -/
def smart_convert (fs : FileSystem) : FileSystem × Except String Unit :=
  match onnx_load fs input_path with
  | none => (fs, Except.error "failed to load model")
  | some model =>
    if model.graph.output.length = 0 then
      (fs, Except.error "CRITICAL: The source model has no outputs! You might need to re-export from PyTorch.")
    else
      let model_fp16 := convert_float_to_float16 model true
      if model_fp16.graph.output.length = 0 then
        (fs, Except.error "CRITICAL: Conversion wiped the outputs. This should not happen with keep_io_types=True.")
      else
        (onnx_save_model fs output_path model_fp16, Except.ok ())

/-- repair_and_convert.py: capture the original outputs, convert WITHOUT
`keep_io_types`, and graft the captured outputs back if the converted graph
has none (`model_fp16.graph.output.extend(original_outputs)`). -/
def repair_and_convert (model : ModelProto) : ModelProto :=
  let original_outputs := model.graph.output
  let model_fp16 := convert_float_to_float16 model false
  if model_fp16.graph.output.length = 0 then
    { model_fp16 with
      graph := { model_fp16.graph with output := model_fp16.graph.output ++ original_outputs } }
  else
    model_fp16

/-- transplant_metadata.py: copy opset list and IR version from the original
model onto the fp16 model, then graft the original outputs back if the fp16
graph has none. -/
def transplant_metadata (model_orig model_fp16 : ModelProto) : ModelProto :=
  let patched : ModelProto :=
    { model_fp16 with opsetImport := model_orig.opsetImport, irVersion := model_orig.irVersion }
  if patched.graph.output.length = 0 then
    { patched with
      graph := { patched.graph with output := patched.graph.output ++ model_orig.graph.output } }
  else
    patched

/-! ### The texture batch converter (convert_exr.py) -/

/-- convert_exr.py: source directory constant. -/
def INPUT_DIR : String := "assets/polyhaven/textures"

/-- convert_exr.py: destination directory constant. -/
def OUTPUT_DIR : String := "assets/textures/rtshowcase"

/-- Resolution cap for hero surfaces. -/
def MAX_HERO_RES : Nat := 2048

/-- Resolution cap for props. -/
def MAX_PROP_RES : Nat := 1024

/-- The selection predicate of the directory scan:
`f.lower().endswith(".exr") and "_nor_" in f`.  Note the extension test is
on the lowercased name while the marker test is on the name as given. -/
def selectFile (f : String) : Bool :=
  endswith (lower f) ".exr" && strIn "_nor_" f

/-- The list comprehension selecting the files to process. -/
def selectFiles (files : List String) : List String :=
  files.filter selectFile

/-- `float(img.min())` for a non-empty flat list of samples. -/
def imgMin : List ℚ → ℚ
  | [] => 0
  | x :: xs => xs.foldl min x

/-- Step 2 of the per-file pipeline before clamping:
`if img_min < 0.0: img = (img * 0.5) + 0.5`. -/
def preClamp (img : List ℚ) : List ℚ :=
  if imgMin img < 0 then img.map (fun x => x * (1 / 2) + 1 / 2) else img

/-- `np.clip(img, 0.0, 1.0)` on one sample. -/
def clip01 (x : ℚ) : ℚ := min (max x 0) 1

/-- `.astype(np.uint16)` on one non-negative sample: truncation toward zero,
which on non-negative values is the floor. -/
def astype_uint16 (x : ℚ) : Nat := (Int.floor x).toNat

/-- The clamp-and-quantize step on one sample:
`img = np.clip(img, 0.0, 1.0); img_16bit = (img * 65535.0).astype(np.uint16)`. -/
def clampQuantize (x : ℚ) : Nat := astype_uint16 (clip01 x * 65535)

/-- The whole numeric pipeline of one image: signed-to-unsigned shift when the
minimum is negative, then clamp and quantize each sample. -/
def convertImage (img : List ℚ) : List Nat :=
  (preClamp img).map clampQuantize

/-- Step 4: the `output_name` / `output_names` pair produced by the
if/elif chain on the lowercased filename. -/
def classifyNames (lower_name : String) : String × List String :=
  if strIn "wood_shutter" lower_name then ("rt_gallery_floor_normal_bc5", [])
  else if strIn "castle_brick" lower_name then ("rt_gallery_leftwall_normal_bc5", [])
  else if strIn "grey_plaster" lower_name then ("rt_gallery_rightwall_normal_bc5", [])
  else if strIn "metal_plate" lower_name then
    ("unknown_normal",
      ["rt_gallery_cylinder_brushed_normal_bc5", "rt_gallery_cube_plastic_normal_bc5"])
  else ("unknown_normal", [])

/-- `targets = output_names if output_names else [output_name]`. -/
def classifyTargets (filename : String) : List String :=
  let p := classifyNames (lower filename)
  if p.2.isEmpty then [p.1] else p.2

/-- Step 5: the resolution cap chosen for one target (membership in the
three-name hero tuple selects the hero cap). -/
def maxRes (target : String) : Nat :=
  if target = "rt_gallery_floor_normal_bc5" ∨ target = "rt_gallery_leftwall_normal_bc5" ∨
      target = "rt_gallery_rightwall_normal_bc5" then
    MAX_HERO_RES
  else
    MAX_PROP_RES

/-- `final_dds = os.path.join(OUTPUT_DIR, target + ".dds")`. -/
def finalDds (target : String) : String :=
  OUTPUT_DIR ++ "/" ++ target ++ ".dds"

/-- One iteration of the batch loop up to the decode guard: `decode` stands
for `cv2.imread` (`none` is a `None` return).  A decode failure becomes a
logged error entry and the loop moves on; a decoded image yields the
quantized samples plus the targets with their caps. -/
def processOne (decode : String → Option (List ℚ)) (filename : String) :
    Except String (List Nat × List (String × Nat)) :=
  match decode filename with
  | none => Except.error ("  [ERROR] Could not read " ++ INPUT_DIR ++ "/" ++ filename)
  | some img =>
      Except.ok (convertImage img, (classifyTargets filename).map (fun t => (t, maxRes t)))

/-- The batch loop of convert_exr_normals: select, then process each selected
file in order, recording each per-file outcome. -/
def convert_exr_normals (decode : String → Option (List ℚ)) (files : List String) :
    List (String × Except String (List Nat × List (String × Nat))) :=
  (selectFiles files).map (fun f => (f, processOne decode f))

/-! ### Concrete fixtures used by the witness theorems -/

/-- A one-input, one-output float32 model used as a concrete test input. -/
def demoModel : ModelProto :=
  { irVersion := 7
    opsetImport := [{ version := 14 }]
    graph :=
      { name := "g"
        input := [{ name := "in0", elemType := 1 }]
        output := [{ name := "out0", elemType := 1 }]
        initializer := [{ name := "w0", elemType := 1 }] } }

/-- A model with no declared outputs, used as a concrete test input. -/
def demoModelNoOut : ModelProto :=
  { irVersion := 7
    opsetImport := [{ version := 14 }]
    graph :=
      { name := "g"
        input := [{ name := "in0", elemType := 1 }]
        output := []
        initializer := [{ name := "w0", elemType := 1 }] } }

/-- A decode oracle that fails on exactly one filename. -/
def demoDecode (f : String) : Option (List ℚ) :=
  if f = "bad_nor_.exr" then none else some [0]

/-! ### Helper lemmas -/

/-- With `keep_io_types = true` the conversion leaves the declared input and
output lists untouched. -/
theorem convert_keep_io_graph (model : ModelProto) :
    (convert_float_to_float16 model true).graph.input = model.graph.input ∧
    (convert_float_to_float16 model true).graph.output = model.graph.output := by
  simp [convert_float_to_float16]

/-! ### Claim theorems -/

/-- Claim C1: running smart_convert on a filesystem whose source graph has
N declared outputs with N positive succeeds, and the saved result graph has
exactly N declared outputs; because the script sets `keep_io_types=True`,
the element types of the declared input and output tensors of the saved
graph are unchanged from the source graph. -/
theorem smart_convert_preserves_outputs (fs : FileSystem) (model : ModelProto)
    (hload : onnx_load fs input_path = some model)
    (hN : 0 < model.graph.output.length) :
    ∃ saved : ModelProto,
      (smart_convert fs).2 = Except.ok () ∧
      onnx_load (smart_convert fs).1 output_path = some saved ∧
      saved.graph.output.length = model.graph.output.length ∧
      saved.graph.input.map TensorInfo.elemType = model.graph.input.map TensorInfo.elemType ∧
      saved.graph.output.map TensorInfo.elemType = model.graph.output.map TensorInfo.elemType := by
  refine ⟨convert_float_to_float16 model true, ?_⟩
  obtain ⟨hin, hout⟩ := convert_keep_io_graph model
  have h0 : ¬ model.graph.output.length = 0 := by omega
  unfold smart_convert
  rw [hload]
  simp only [h0, if_false, hout]
  simp [onnx_load, onnx_save_model, List.lookup, hin, hout]

/-- Claim C2: if the loaded source graph has zero declared outputs,
smart_convert stops with the terminal error before any conversion or save;
the filesystem is returned unchanged, so in particular the state at the
output path is exactly what it was before. -/
theorem smart_convert_aborts_without_outputs (fs : FileSystem) (model : ModelProto)
    (hload : onnx_load fs input_path = some model)
    (h0 : model.graph.output.length = 0) :
    (smart_convert fs).1 = fs ∧
    (smart_convert fs).2 =
      Except.error "CRITICAL: The source model has no outputs! You might need to re-export from PyTorch." ∧
    onnx_load (smart_convert fs).1 output_path = onnx_load fs output_path := by
  unfold smart_convert
  rw [hload]
  simp [h0]

/-- Claim C7: in both repair scripts, when the output tensor list is empty
after the transformation (fp16 conversion in repair_and_convert, metadata
patch in transplant_metadata), the output list captured from the original
graph is copied back, so the saved output list equals the original one; when
the post-transformation output list is non-empty the model is left as is. -/
theorem repair_scripts_graft_outputs (model model_orig model_fp16 : ModelProto) :
    ((convert_float_to_float16 model false).graph.output = [] →
        (repair_and_convert model).graph.output = model.graph.output) ∧
    ((convert_float_to_float16 model false).graph.output ≠ [] →
        repair_and_convert model = convert_float_to_float16 model false) ∧
    (model_fp16.graph.output = [] →
        (transplant_metadata model_orig model_fp16).graph.output = model_orig.graph.output) ∧
    (model_fp16.graph.output ≠ [] →
        transplant_metadata model_orig model_fp16 =
          { model_fp16 with
            opsetImport := model_orig.opsetImport, irVersion := model_orig.irVersion }) := by
  refine ⟨?_, ?_, ?_, ?_⟩
  · intro h
    simp [repair_and_convert, h, List.length_eq_zero]
  · intro h
    have : ¬ (convert_float_to_float16 model false).graph.output.length = 0 := by
      simpa [List.length_eq_zero] using h
    simp [repair_and_convert, this]
  · intro h
    simp [transplant_metadata, h, List.length_eq_zero]
  · intro h
    have : ¬ model_fp16.graph.output.length = 0 := by
      simpa [List.length_eq_zero] using h
    simp [transplant_metadata, this]

/-! ### Witnesses for the model fixer claims -/

/-- Concrete instance of claim C1 on a one-output model. -/
theorem smart_convert_preserves_outputs_witness :
    onnx_load [(input_path, demoModel)] input_path = some demoModel ∧
    0 < demoModel.graph.output.length ∧
    ∃ saved : ModelProto,
      (smart_convert [(input_path, demoModel)]).2 = Except.ok () ∧
      onnx_load (smart_convert [(input_path, demoModel)]).1 output_path = some saved ∧
      saved.graph.output.length = demoModel.graph.output.length ∧
      saved.graph.input.map TensorInfo.elemType =
        demoModel.graph.input.map TensorInfo.elemType ∧
      saved.graph.output.map TensorInfo.elemType =
        demoModel.graph.output.map TensorInfo.elemType :=
  ⟨by decide, by decide,
    smart_convert_preserves_outputs [(input_path, demoModel)] demoModel (by decide) (by decide)⟩

/-- Concrete instance of claim C2 on a zero-output model. -/
theorem smart_convert_aborts_without_outputs_witness :
    (smart_convert [(input_path, demoModelNoOut)]).1 = [(input_path, demoModelNoOut)] ∧
    (smart_convert [(input_path, demoModelNoOut)]).2 =
      Except.error "CRITICAL: The source model has no outputs! You might need to re-export from PyTorch." ∧
    onnx_load (smart_convert [(input_path, demoModelNoOut)]).1 output_path =
      onnx_load [(input_path, demoModelNoOut)] output_path :=
  smart_convert_aborts_without_outputs [(input_path, demoModelNoOut)] demoModelNoOut
    (by decide) (by decide)

/-- Concrete instances of claim C7: both the grafting branch and the
leave-alone branch, exercised on concrete models. -/
theorem repair_scripts_graft_outputs_witness :
    ((repair_and_convert demoModelNoOut).graph.output = demoModelNoOut.graph.output) ∧
    ((transplant_metadata demoModel demoModelNoOut).graph.output = demoModel.graph.output) ∧
    (transplant_metadata demoModelNoOut demoModel =
      { demoModel with
        opsetImport := demoModelNoOut.opsetImport, irVersion := demoModelNoOut.irVersion }) :=
  ⟨(repair_scripts_graft_outputs demoModelNoOut demoModel demoModelNoOut).1 (by decide),
   (repair_scripts_graft_outputs demoModelNoOut demoModel demoModelNoOut).2.2.1 (by decide),
   (repair_scripts_graft_outputs demoModelNoOut demoModelNoOut demoModel).2.2.2 (by decide)⟩

/-- Claim C3 counterexample: at the sample value 1/2 (which the pre-clamp
stage passes through unchanged) the pipeline produces 32767, while
round(clamp(1/2,0,1) * 65535) = round(32767.5) = 32768: the cast to uint16
truncates, it does not round. -/
theorem clampQuantize_truncates_not_rounds :
    convertImage [(1 / 2 : ℚ)] = [32767] ∧
    (round (clip01 (1 / 2 : ℚ) * 65535)).toNat = 32768 := by
  constructor
  · norm_num [convertImage, preClamp, imgMin, clampQuantize, astype_uint16, clip01]
    rfl
  · norm_num [clip01, round_eq]
    rfl

/-- Claim C3 as amended: for every input image and every sample x surviving
the pre-clamp stage, the final 16-bit value lies in [0, 65535] (it is a Nat
bounded by 65535) and equals the TRUNCATION of clamp(x,0,1) * 65535, stated
through the floor characterization. -/
theorem convertImage_trunc_bounds (img : List ℚ) (x : ℚ) (hx : x ∈ preClamp img) :
    clampQuantize x ∈ convertImage img ∧
    clampQuantize x ≤ 65535 ∧
    (clampQuantize x : ℚ) ≤ clip01 x * 65535 ∧
    clip01 x * 65535 < (clampQuantize x : ℚ) + 1 := by
  have h0 : (0 : ℚ) ≤ clip01 x := le_min (le_max_right x 0) zero_le_one
  have h1 : clip01 x ≤ 1 := min_le_right _ _
  have hv0 : (0 : ℚ) ≤ clip01 x * 65535 := mul_nonneg h0 (by norm_num)
  have hv1 : clip01 x * 65535 ≤ 65535 := by nlinarith
  have hfl0 : 0 ≤ ⌊clip01 x * 65535⌋ := Int.floor_nonneg.mpr hv0
  have hcast : ((clampQuantize x : ℚ)) = ((⌊clip01 x * 65535⌋ : ℤ) : ℚ) := by
    unfold clampQuantize astype_uint16
    exact_mod_cast congrArg (fun z : ℤ => (z : ℚ)) (Int.toNat_of_nonneg hfl0)
  refine ⟨List.mem_map_of_mem _ hx, ?_, ?_, ?_⟩
  · have hle : (⌊clip01 x * 65535⌋ : ℚ) ≤ 65535 := le_trans (Int.floor_le _) hv1
    have hle2 : ⌊clip01 x * 65535⌋ ≤ 65535 := by exact_mod_cast hle
    unfold clampQuantize astype_uint16
    omega
  · rw [hcast]
    exact Int.floor_le _
  · rw [hcast]
    exact_mod_cast Int.lt_floor_add_one (clip01 x * 65535)

/-- Claim C4: for every image with minimum sample value m, if m is negative
the pre-clamp image equals 0.5 * input + 0.5 elementwise, and if m is
non-negative the image passes through unchanged before clamping. -/
theorem preClamp_shift_or_identity (img : List ℚ) :
    (imgMin img < 0 → preClamp img = img.map (fun x => 0.5 * x + 0.5)) ∧
    (0 ≤ imgMin img → preClamp img = img) := by
  constructor
  · intro h
    have hfun : (fun x : ℚ => x * (1 / 2) + 1 / 2) = fun x : ℚ => 0.5 * x + 0.5 := by
      funext x
      rw [show (0.5 : ℚ) = 1 / 2 by norm_num]
      ring
    rw [preClamp, if_pos h, hfun]
  · intro h
    rw [preClamp, if_neg (not_lt.mpr h)]

/-- Concrete instance of the amended claim C3 at the sample 1/2. -/
theorem convertImage_trunc_bounds_witness :
    clampQuantize (1 / 2 : ℚ) ∈ convertImage [(1 / 2 : ℚ)] ∧
    clampQuantize (1 / 2 : ℚ) ≤ 65535 ∧
    (clampQuantize (1 / 2 : ℚ) : ℚ) ≤ clip01 (1 / 2 : ℚ) * 65535 ∧
    clip01 (1 / 2 : ℚ) * 65535 < (clampQuantize (1 / 2 : ℚ) : ℚ) + 1 :=
  convertImage_trunc_bounds [(1 / 2 : ℚ)] (1 / 2)
    (by norm_num [preClamp, imgMin])

/-- Concrete instances of claim C4: a negative-minimum image is remapped, a
non-negative one passes through. -/
theorem preClamp_shift_or_identity_witness :
    preClamp [(-1 : ℚ)] = [(-1 : ℚ)].map (fun x => 0.5 * x + 0.5) ∧
    preClamp [(1 : ℚ)] = [(1 : ℚ)] :=
  ⟨(preClamp_shift_or_identity [(-1 : ℚ)]).1 (by norm_num [imgMin]),
   (preClamp_shift_or_identity [(1 : ℚ)]).2 (by norm_num [imgMin])⟩

/-- The classification can only produce one of five concrete target lists. -/
theorem classifyTargets_cases (f : String) :
    classifyTargets f = ["rt_gallery_floor_normal_bc5"] ∨
    classifyTargets f = ["rt_gallery_leftwall_normal_bc5"] ∨
    classifyTargets f = ["rt_gallery_rightwall_normal_bc5"] ∨
    classifyTargets f =
      ["rt_gallery_cylinder_brushed_normal_bc5", "rt_gallery_cube_plastic_normal_bc5"] ∨
    classifyTargets f = ["unknown_normal"] := by
  unfold classifyTargets classifyNames
  split_ifs <;> simp

/-- Claim C5 counterexample: the selected filename
"wood_shutter_metal_plate_01_nor_gl.exr" contains the substring
"metal_plate" but produces exactly ONE output target, because the
wood_shutter branch of the if/elif chain fires first. -/
theorem classify_metal_plate_overlap :
    selectFile "wood_shutter_metal_plate_01_nor_gl.exr" = true ∧
    strIn "metal_plate" "wood_shutter_metal_plate_01_nor_gl.exr" = true ∧
    (classifyTargets "wood_shutter_metal_plate_01_nor_gl.exr").length = 1 := by
  decide

/-- Claim C5 as amended: the category substrings are tested on the lowercased
filename in priority order wood_shutter, castle_brick, grey_plaster,
metal_plate; a filename whose FIRST match is metal_plate produces exactly two
output targets, and a filename whose first match is wood_shutter,
castle_brick or grey_plaster produces exactly one (the floor, leftwall and
rightwall name respectively). -/
theorem classifyTargets_priority (f : String) :
    (strIn "wood_shutter" (lower f) = true →
        classifyTargets f = ["rt_gallery_floor_normal_bc5"]) ∧
    (strIn "wood_shutter" (lower f) = false →
      strIn "castle_brick" (lower f) = true →
        classifyTargets f = ["rt_gallery_leftwall_normal_bc5"]) ∧
    (strIn "wood_shutter" (lower f) = false →
      strIn "castle_brick" (lower f) = false →
      strIn "grey_plaster" (lower f) = true →
        classifyTargets f = ["rt_gallery_rightwall_normal_bc5"]) ∧
    (strIn "wood_shutter" (lower f) = false →
      strIn "castle_brick" (lower f) = false →
      strIn "grey_plaster" (lower f) = false →
      strIn "metal_plate" (lower f) = true →
        (classifyTargets f).length = 2) := by
  refine ⟨?_, ?_, ?_, ?_⟩
  · intro h1
    simp [classifyTargets, classifyNames, h1]
  · intro h1 h2
    simp [classifyTargets, classifyNames, h1, h2]
  · intro h1 h2 h3
    simp [classifyTargets, classifyNames, h1, h2, h3]
  · intro h1 h2 h3 h4
    simp [classifyTargets, classifyNames, h1, h2, h3, h4]

/-- Claim C6: every target the classifier can emit for any filename gets the
hero cap 2048 exactly when its name contains "_floor_", "_leftwall_" or
"_rightwall_", and the prop cap 1024 otherwise. -/
theorem maxRes_hero_vs_prop (f t : String) (ht : t ∈ classifyTargets f) :
    ((strIn "_floor_" t || strIn "_leftwall_" t || strIn "_rightwall_" t) = true →
        maxRes t = MAX_HERO_RES) ∧
    ((strIn "_floor_" t || strIn "_leftwall_" t || strIn "_rightwall_" t) = false →
        maxRes t = MAX_PROP_RES) := by
  rcases classifyTargets_cases f with h | h | h | h | h <;> rw [h] at ht <;>
    simp only [List.mem_singleton, List.mem_cons, List.not_mem_nil, or_false] at ht
  · subst ht; decide
  · subst ht; decide
  · subst ht; decide
  · rcases ht with ht | ht <;> subst ht <;> decide
  · subst ht; decide

/-- Claim C8 counterexample: the file "brick_nor_.EXR" IS selected by the
scan (the extension test runs on the lowercased name), although its name
does not end with the literal extension ".exr". -/
theorem selectFile_uppercase_extension :
    "brick_nor_.EXR" ∈ selectFiles ["brick_nor_.EXR"] ∧
    endswith "brick_nor_.EXR" ".exr" = false := by
  decide

/-- Claim C8 as amended: a directory entry is selected if and only if it is
in the listing, its LOWERCASED name ends with ".exr", and its name as given
contains the substring "_nor_". -/
theorem selectFiles_membership (files : List String) (f : String) :
    f ∈ selectFiles files ↔
      f ∈ files ∧ endswith (lower f) ".exr" = true ∧ strIn "_nor_" f = true := by
  simp [selectFiles, selectFile, List.mem_filter, Bool.and_eq_true, and_assoc]

/-- Claim C9: if one selected file fails to decode, the batch records a
logged error entry for it and still processes every file before and after it
exactly as it would have; an unreadable file never terminates the batch. -/
theorem batch_skips_unreadable (decode : String → Option (List ℚ))
    (files pre post : List String) (bad : String)
    (hsel : selectFiles files = pre ++ bad :: post)
    (hbad : decode bad = none) :
    convert_exr_normals decode files =
      pre.map (fun f => (f, processOne decode f)) ++
        (bad,
          Except.error ("  [ERROR] Could not read " ++ INPUT_DIR ++ "/" ++ bad)) ::
          post.map (fun f => (f, processOne decode f)) := by
  unfold convert_exr_normals
  rw [hsel, List.map_append, List.map_cons]
  have hb : processOne decode bad =
      Except.error ("  [ERROR] Could not read " ++ INPUT_DIR ++ "/" ++ bad) := by
    unfold processOne
    rw [hbad]
  rw [hb]

/-- Claim C10: a selected file matching none of the four category substrings
is not skipped; it yields the single target "unknown_normal" at the prop cap
1024, whose destination is the fixed path "unknown_normal.dds" inside the
output directory (the same destination for every such file). -/
theorem unknown_normal_target (f : String)
    (h1 : strIn "wood_shutter" (lower f) = false)
    (h2 : strIn "castle_brick" (lower f) = false)
    (h3 : strIn "grey_plaster" (lower f) = false)
    (h4 : strIn "metal_plate" (lower f) = false) :
    classifyTargets f = ["unknown_normal"] ∧
    maxRes "unknown_normal" = MAX_PROP_RES ∧
    finalDds "unknown_normal" = "assets/textures/rtshowcase/unknown_normal.dds" ∧
    ∀ (decode : String → Option (List ℚ)) (img : List ℚ),
      decode f = some img →
        processOne decode f =
          Except.ok (convertImage img, [("unknown_normal", MAX_PROP_RES)]) := by
  have hcls : classifyTargets f = ["unknown_normal"] := by
    simp [classifyTargets, classifyNames, h1, h2, h3, h4]
  have hmx : maxRes "unknown_normal" = MAX_PROP_RES := by decide
  refine ⟨hcls, hmx, by decide, ?_⟩
  intro decode img hdec
  unfold processOne
  rw [hdec, hcls]
  simp [hmx]

/-! ### Witnesses for the batch converter claims -/

/-- Concrete instances of the amended claim C5: a first-match metal_plate
file gives two targets, a wood_shutter file gives the floor target. -/
theorem classifyTargets_priority_witness :
    (classifyTargets "metal_plate_02_nor_gl.exr").length = 2 ∧
    classifyTargets "wood_shutter_01_nor_gl.exr" = ["rt_gallery_floor_normal_bc5"] :=
  ⟨(classifyTargets_priority "metal_plate_02_nor_gl.exr").2.2.2
      (by decide) (by decide) (by decide) (by decide),
   (classifyTargets_priority "wood_shutter_01_nor_gl.exr").1 (by decide)⟩

/-- Concrete instances of claim C6: the floor target of a wood_shutter file
gets the hero cap, the unknown_normal target of an unmatched file gets the
prop cap. -/
theorem maxRes_hero_vs_prop_witness :
    maxRes "rt_gallery_floor_normal_bc5" = MAX_HERO_RES ∧
    maxRes "unknown_normal" = MAX_PROP_RES :=
  ⟨(maxRes_hero_vs_prop "wood_shutter_01_nor_gl.exr" "rt_gallery_floor_normal_bc5"
      (by decide)).1 (by decide),
   (maxRes_hero_vs_prop "plain_01_nor_gl.exr" "unknown_normal" (by decide)).2 (by decide)⟩

/-- Concrete instance of claim C9: a three-file batch whose middle file fails
to decode records the error for it and processes both neighbours. -/
theorem batch_skips_unreadable_witness :
    convert_exr_normals demoDecode ["good_nor_.exr", "bad_nor_.exr", "tail_nor_.exr"] =
      ["good_nor_.exr"].map (fun f => (f, processOne demoDecode f)) ++
        ("bad_nor_.exr",
          Except.error ("  [ERROR] Could not read " ++ INPUT_DIR ++ "/" ++ "bad_nor_.exr")) ::
          ["tail_nor_.exr"].map (fun f => (f, processOne demoDecode f)) :=
  batch_skips_unreadable demoDecode ["good_nor_.exr", "bad_nor_.exr", "tail_nor_.exr"]
    ["good_nor_.exr"] ["tail_nor_.exr"] "bad_nor_.exr" (by decide) (by decide)

/-- Concrete instance of claim C10 on a file matching no category. -/
theorem unknown_normal_target_witness :
    classifyTargets "stone_tile_02_nor_gl.exr" = ["unknown_normal"] ∧
    processOne demoDecode "stone_tile_02_nor_gl.exr" =
      Except.ok (convertImage [0], [("unknown_normal", MAX_PROP_RES)]) :=
  ⟨(unknown_normal_target "stone_tile_02_nor_gl.exr"
      (by decide) (by decide) (by decide) (by decide)).1,
   (unknown_normal_target "stone_tile_02_nor_gl.exr"
      (by decide) (by decide) (by decide) (by decide)).2.2.2 demoDecode [0] (by decide)⟩

end CortexEngine
